import Mathlib

/-!
Verification of the earthquake feed service (src/main.py) against its
natural-language specification.

The embedding models the module constants, the haversine distance routine
`calculate_distance`, the fetch/filter/sort routine `get_earthquake` and the
JSON endpoint `get_earthquakes_api`.  Python floats are modelled as real
numbers; the outbound HTTP call together with JSON decoding is modelled as an
`Except` value handed to `get_earthquake`; runtime faults raised while
extracting fields from a feature record are modelled by the error branch of
an `Except` computation, and the blanket exception handler of the source is
the final match that maps any error to the empty list.  The host timezone
offset used by `datetime.fromtimestamp` is an explicit parameter `tz`
(seconds east of UTC; it is 0 only when the host clock runs in UTC).
-/

/-- Reference latitude of San Francisco, module constant SF_LAT in src/main.py. -/
def SF_LAT : ℝ := 37.7749

/-- Reference longitude of San Francisco, module constant SF_LON in src/main.py. -/
def SF_LON : ℝ := -122.4194

/-- Alert radius in kilometers, module constant RADIUS_KM in src/main.py. -/
def RADIUS_KM : ℝ := 200

/-- Degrees to radians, the Python library function math.radians. -/
noncomputable def radiansDeg (x : ℝ) : ℝ := x * Real.pi / 180

/-- Two-argument arctangent, the Python library function math.atan2. -/
noncomputable def atan2 (y x : ℝ) : ℝ :=
  if 0 < x then Real.arctan (y / x)
  else if x < 0 then
    (if 0 ≤ y then Real.arctan (y / x) + Real.pi else Real.arctan (y / x) - Real.pi)
  else
    (if 0 < y then Real.pi / 2 else if y < 0 then -(Real.pi / 2) else 0)

/-- Haversine distance in kilometers, the function calculate_distance of
src/main.py (lines 16 to 28), translated clause by clause. -/
noncomputable def calculate_distance (lat1 lon1 lat2 lon2 : ℝ) : ℝ :=
  let R : ℝ := 6371
  let rlat1 := radiansDeg lat1
  let rlon1 := radiansDeg lon1
  let rlat2 := radiansDeg lat2
  let rlon2 := radiansDeg lon2
  let dlat := rlat2 - rlat1
  let dlon := rlon2 - rlon1
  let a := Real.sin (dlat / 2) ^ 2 +
    Real.cos rlat1 * Real.cos rlat2 * Real.sin (dlon / 2) ^ 2
  let c := 2 * atan2 (Real.sqrt a) (Real.sqrt (1 - a))
  R * c

/-- The haversine contract exactly as section 4.1 of the specification words
it: convert the coordinates of both points to radians, form
a = sin^2(dlat/2) + cos(lat1) cos(lat2) sin^2(dlon/2), form the central angle
c = 2 atan2(sqrt a, sqrt (1 - a)), and return R * c with R = 6371. -/
noncomputable def haversine_spec (lat1 lon1 lat2 lon2 : ℝ) : ℝ :=
  6371 *
    (2 * atan2
      (Real.sqrt (Real.sin ((radiansDeg lat2 - radiansDeg lat1) / 2) ^ 2 +
        Real.cos (radiansDeg lat1) * Real.cos (radiansDeg lat2) *
          Real.sin ((radiansDeg lon2 - radiansDeg lon1) / 2) ^ 2))
      (Real.sqrt (1 - (Real.sin ((radiansDeg lat2 - radiansDeg lat1) / 2) ^ 2 +
        Real.cos (radiansDeg lat1) * Real.cos (radiansDeg lat2) *
          Real.sin ((radiansDeg lon2 - radiansDeg lon1) / 2) ^ 2))))

/-- The six fields produced by the strftime format %Y-%m-%d %H:%M:%S; the
format is injective on these fields, so string equality is field equality. -/
structure DateTimeParts where
  year : ℤ
  month : ℤ
  day : ℤ
  hour : ℤ
  minute : ℤ
  second : ℤ
deriving DecidableEq, Repr

/-- Civil calendar fields of an epoch-seconds instant, the composition of
datetime construction and strftime of the Python standard library (proleptic
Gregorian calendar, algorithm of days-from-epoch to year/month/day). -/
def civilFromSeconds (s : ℤ) : DateTimeParts :=
  let days := s.fdiv 86400
  let secsOfDay := s.fmod 86400
  let hour := secsOfDay.fdiv 3600
  let minute := (secsOfDay.fmod 3600).fdiv 60
  let second := secsOfDay.fmod 60
  let z := days + 719468
  let era := z.fdiv 146097
  let doe := z.fmod 146097
  let yoe := (doe - doe.fdiv 1460 + doe.fdiv 36524 - doe.fdiv 146096).fdiv 365
  let y := yoe + era * 400
  let doy := doe - (365 * yoe + yoe.fdiv 4 - yoe.fdiv 100)
  let mp := (5 * doy + 2).fdiv 153
  let d := doy - (153 * mp + 2).fdiv 5 + 1
  let m := mp + (if mp < 10 then 3 else -9)
  { year := y + (if m ≤ 2 then 1 else 0), month := m, day := d,
    hour := hour, minute := minute, second := second }

/-- Round to the nearest integer, ties to even: the rounding used by the
Python builtin round. -/
noncomputable def roundHalfEven (y : ℝ) : ℤ :=
  if Int.fract y < 1 / 2 then ⌊y⌋
  else if 1 / 2 < Int.fract y then ⌊y⌋ + 1
  else if Even ⌊y⌋ then ⌊y⌋ else ⌊y⌋ + 1

/-- The Python expression round(x, 1): round to one decimal place. -/
noncomputable def round1 (x : ℝ) : ℝ := (roundHalfEven (10 * x) : ℝ) / 10

/-- Every fault class that the try block of get_earthquake can observe: the
fetch-boundary failures (network error, timeout, non-success HTTP status from
raise_for_status, JSON decode failure) and the per-record extraction faults
(KeyError, IndexError, TypeError). -/
inductive FetchErr where
  | connectionError : FetchErr
  | timeoutError : FetchErr
  | httpStatusError : ℕ → FetchErr
  | jsonDecodeError : FetchErr
  | keyError : String → FetchErr
  | indexError : FetchErr
  | typeError : FetchErr
deriving DecidableEq

/-- The geometry member of a GeoJSON feature: its coordinates list. -/
structure Geometry where
  coordinates : List ℝ

/-- The properties member of a GeoJSON feature; every field is optional
because the source reads them with dict.get. -/
structure EventProperties where
  mag : Option ℝ
  place : Option String
  time : Option ℤ
  url : Option String
  alert : Option String
  felt : Option ℤ
  tsunami : Option ℤ

/-- One entry of the feature collection; geometry or properties may be
missing, in which case the corresponding dict lookup raises KeyError. -/
structure Feature where
  geometry : Option Geometry
  properties : Option EventProperties

/-- The decoded feed payload; the features key is read with
data.get with default empty list, hence optional. -/
structure FeedData where
  features : Option (List Feature)

/-- The earthquake_info dict built in get_earthquake (lines 66 to 76). -/
structure EarthquakeRecord where
  magnitude : Option ℝ
  place : Option String
  time : DateTimeParts
  distance_km : ℝ
  depth_km : ℝ
  url : Option String
  alert : Option String
  felt : Option ℤ
  tsunami : Option ℤ

/-- The sort key of line 80: x.magnitude if x.magnitude else 0; a missing or
zero magnitude is falsy in Python and yields key 0. -/
noncomputable def sortKey (e : EarthquakeRecord) : ℝ :=
  match e.magnitude with
  | none => 0
  | some m => if m = 0 then 0 else m

/-- The ordering used by list.sort with that key and reverse true:
descending by sort key. -/
def magGE (a b : EarthquakeRecord) : Prop := sortKey b ≤ sortKey a

noncomputable instance : DecidableRel magGE := fun _ _ => Real.decidableLE _ _

instance : IsTotal EarthquakeRecord magGE :=
  ⟨fun a b => le_total (sortKey b) (sortKey a)⟩

instance : IsTrans EarthquakeRecord magGE :=
  ⟨fun _ _ _ hab hbc => le_trans hbc hab⟩

/-- The body of the loop of get_earthquake (lines 58 to 77) for one feature:
either a per-record fault, or no record (distance above the radius), or the
constructed record.  Field accesses are performed in source order, so the
fault raised matches the first failing access of the Python code. -/
noncomputable def processFeature (tz : ℤ) (feature : Feature) :
    Except FetchErr (Option EarthquakeRecord) :=
  match feature.geometry with
  | none => .error (.keyError "geometry")
  | some g =>
    match g.coordinates with
    | lon :: lat :: rest =>
      let distance := calculate_distance SF_LAT SF_LON lat lon
      if distance ≤ RADIUS_KM then
        match feature.properties with
        | none => .error (.keyError "properties")
        | some properties =>
          match properties.time with
          | none => .error .typeError
          | some t =>
            match rest with
            | depth :: _ =>
              .ok (some
                { magnitude := properties.mag
                  place := properties.place
                  time := civilFromSeconds (t.fdiv 1000 + tz)
                  distance_km := round1 distance
                  depth_km := round1 depth
                  url := properties.url
                  alert := properties.alert
                  felt := properties.felt
                  tsunami := properties.tsunami })
            | [] => .error .indexError
      else .ok none
    | _ => .error .indexError

/-- The whole loop of get_earthquake: accumulate the nearby records in feed
order, stopping at the first per-record fault. -/
noncomputable def collectRecords (tz : ℤ) : List Feature → Except FetchErr (List EarthquakeRecord)
  | [] => .ok []
  | f :: fs =>
    match processFeature tz f with
    | .error e => .error e
    | .ok none => collectRecords tz fs
    | .ok (some r) =>
      match collectRecords tz fs with
      | .error e => .error e
      | .ok l => .ok (r :: l)

/-- The try block of get_earthquake: fetch, decode, loop, sort.  The
insertion sort with the descending key relation models the stable
list.sort of Python with reverse true. -/
noncomputable def get_earthquake_core (tz : ℤ) (resp : Except FetchErr FeedData) :
    Except FetchErr (List EarthquakeRecord) :=
  match resp with
  | .error e => .error e
  | .ok data =>
    match collectRecords tz (data.features.getD []) with
    | .error e => .error e
    | .ok l => .ok (List.insertionSort magGE l)

/-- The function get_earthquake of src/main.py (lines 31 to 86): the try
block, with the blanket exception handler mapping every fault to the empty
list. -/
noncomputable def get_earthquake (tz : ℤ) (resp : Except FetchErr FeedData) :
    List EarthquakeRecord :=
  match get_earthquake_core tz resp with
  | .ok l => l
  | .error _ => []

/-- The JSON object returned by the /api/earthquakes endpoint. -/
structure ApiResponse where
  count : ℕ
  earthquakes : List EarthquakeRecord
  last_updated : DateTimeParts

/-- The endpoint get_earthquakes_api of src/main.py (lines 94 to 102); the
current UTC instant used for last_updated is a parameter. -/
noncomputable def get_earthquakes_api (tz : ℤ) (resp : Except FetchErr FeedData)
    (now : DateTimeParts) : ApiResponse :=
  let earthquakes := get_earthquake tz resp
  { count := earthquakes.length
    earthquakes := earthquakes
    last_updated := now }

/-! ## Helper lemmas -/

/-- The distance from a point to itself is zero. -/
lemma calculate_distance_self (lat lon : ℝ) : calculate_distance lat lon lat lon = 0 := by
  simp only [calculate_distance, atan2, sub_self, zero_div, Real.sin_zero, ne_eq,
    OfNat.ofNat_ne_zero, not_false_eq_true, zero_pow, mul_zero, add_zero, Real.sqrt_zero,
    sub_zero, Real.sqrt_one, zero_lt_one, if_true, Real.arctan_zero]

/-- The arctangent is nonnegative on nonnegative inputs. -/
lemma arctan_nonneg_of_nonneg {t : ℝ} (ht : 0 ≤ t) : 0 ≤ Real.arctan t := by
  have h := Real.arctan_strictMono.monotone ht
  rwa [Real.arctan_zero] at h

/-- The two-argument arctangent is nonnegative on the closed upper half
plane. -/
lemma atan2_nonneg {y x : ℝ} (hy : 0 ≤ y) : 0 ≤ atan2 y x := by
  unfold atan2
  split_ifs with h1 h2 h3 h4 _h5
  · exact arctan_nonneg_of_nonneg (div_nonneg hy h1.le)
  all_goals
    have hpi := Real.pi_pos
    have harc := Real.neg_pi_div_two_lt_arctan (y / x)
    linarith

/-- Rounding half to even never exceeds its argument by more than one half. -/
lemma roundHalfEven_le (y : ℝ) : (roundHalfEven y : ℝ) ≤ y + 1 / 2 := by
  have hfr : Int.fract y = y - (⌊y⌋ : ℝ) := rfl
  have hf0 : 0 ≤ Int.fract y := Int.fract_nonneg y
  unfold roundHalfEven
  split_ifs with h1 h2 h3
  · linarith
  · push_cast
    linarith
  · linarith
  · push_cast
    linarith

/-- Rounding to one decimal place preserves an upper bound of 200. -/
lemma round1_le_200 {x : ℝ} (h : x ≤ 200) : round1 x ≤ 200 := by
  unfold round1
  have h1 : (roundHalfEven (10 * x) : ℝ) ≤ 10 * x + 1 / 2 := roundHalfEven_le _
  have h2 : (roundHalfEven (10 * x) : ℝ) < 2001 := by linarith
  have h3 : roundHalfEven (10 * x) ≤ 2000 := by
    have h2i : roundHalfEven (10 * x) < 2001 := by exact_mod_cast h2
    omega
  have h4 : (roundHalfEven (10 * x) : ℝ) ≤ 2000 := by exact_mod_cast h3
  linarith

/-! ## Claims about the error-masking boundary -/

/-- A record processed successfully and accepted into the list has its
distance bounded by the radius after rounding. -/
lemma processFeature_distance_le {tz : ℤ} {f : Feature} {r : EarthquakeRecord}
    (h : processFeature tz f = .ok (some r)) : r.distance_km ≤ 200 := by
  obtain ⟨geo, props⟩ := f
  cases geo with
  | none => simp [processFeature] at h
  | some g =>
    obtain ⟨coords⟩ := g
    cases coords with
    | nil => simp [processFeature] at h
    | cons lon tail =>
      cases tail with
      | nil => simp [processFeature] at h
      | cons lat rest =>
        simp only [processFeature] at h
        by_cases hd : calculate_distance SF_LAT SF_LON lat lon ≤ RADIUS_KM
        · rw [if_pos hd] at h
          cases props with
          | none => simp at h
          | some p =>
            dsimp only at h
            cases htv : p.time with
            | none =>
              rw [htv] at h
              simp at h
            | some t =>
              rw [htv] at h
              cases rest with
              | nil => simp at h
              | cons depth rest2 =>
                simp only [Except.ok.injEq, Option.some.injEq] at h
                subst h
                exact round1_le_200 (by simpa [RADIUS_KM] using hd)
        · rw [if_neg hd] at h
          simp at h

/-- Membership in the collected list comes from a successfully processed
feature of the input list. -/
lemma mem_collectRecords {tz : ℤ} :
    ∀ {fs : List Feature} {l : List EarthquakeRecord} {r : EarthquakeRecord},
      collectRecords tz fs = .ok l → r ∈ l →
      ∃ f ∈ fs, processFeature tz f = .ok (some r) := by
  intro fs
  induction fs with
  | nil =>
    intro l r h hr
    unfold collectRecords at h
    rw [Except.ok.injEq] at h
    subst h
    exact absurd hr (List.not_mem_nil r)
  | cons f fs ih =>
    intro l r h hr
    unfold collectRecords at h
    split at h
    · exact absurd h (by simp)
    · rcases ih h hr with ⟨f0, hf0, hp⟩
      exact ⟨f0, List.mem_cons_of_mem f hf0, hp⟩
    · rename_i r0 hp0
      split at h
      · exact absurd h (by simp)
      · rename_i l0 hc0
        rw [Except.ok.injEq] at h
        subst h
        rcases List.mem_cons.mp hr with h | h
        · subst h
          exact ⟨f, List.mem_cons_self f fs, hp0⟩
        · rcases ih hc0 h with ⟨f0, hf0, hp⟩
          exact ⟨f0, List.mem_cons_of_mem f hf0, hp⟩

/-- Membership in the returned list comes from a successfully processed
feature of the feed. -/
lemma mem_get_earthquake {tz : ℤ} {resp : Except FetchErr FeedData} {r : EarthquakeRecord}
    (h : r ∈ get_earthquake tz resp) :
    ∃ f, processFeature tz f = .ok (some r) := by
  unfold get_earthquake get_earthquake_core at h
  split at h
  · rename_i l hl
    split at hl
    · exact absurd hl (by simp)
    · split at hl
      · exact absurd hl (by simp)
      · rename_i data l0 hc
        rw [Except.ok.injEq] at hl
        subst hl
        rw [List.mem_insertionSort] at h
        rcases mem_collectRecords hc h with ⟨f, _, hp⟩
        exact ⟨f, hp⟩
  · exact absurd h (List.not_mem_nil r)


/-! ## Fixture data -/

/-- A feature whose shape is malformed: both the geometry and the properties
keys are missing from the dict. -/
def malformedFeature : Feature := { geometry := none, properties := none }

/-- A decoded feed whose single feature record is malformed. -/
def malformedFeed : FeedData := { features := some [malformedFeature] }

/-! ## Claim theorems -/

/-- C1: for every failure of the feed interaction (network error, timeout,
non-success HTTP status, malformed or undecodable payload), get_earthquake
returns the empty list without propagating the error, and the
/api/earthquakes endpoint consequently answers with count 0, an empty
earthquakes list and the current time, not an error status. -/
theorem claim_C1_error_masking :
    ∀ (tz : ℤ) (e : FetchErr) (now : DateTimeParts),
      get_earthquake tz (.error e) = [] ∧
      (get_earthquakes_api tz (.error e) now).count = 0 ∧
      (get_earthquakes_api tz (.error e) now).earthquakes = [] ∧
      (get_earthquakes_api tz (.error e) now).last_updated = now := by
  intro tz e now
  exact ⟨rfl, rfl, rfl, rfl⟩

/-- C6: calculate_distance coincides everywhere with the haversine formula
exactly as the specification words it, with Earth radius 6371 km. -/
theorem claim_C6_haversine_formula :
    ∀ lat1 lon1 lat2 lon2 : ℝ,
      calculate_distance lat1 lon1 lat2 lon2 = haversine_spec lat1 lon1 lat2 lon2 := by
  intro lat1 lon1 lat2 lon2
  rfl

/-- C10: on every invocation of the /api/earthquakes endpoint, the count
field equals the length of the earthquakes list, on the success path and on
the masked-failure path alike. -/
theorem claim_C10_count_matches :
    ∀ (tz : ℤ) (resp : Except FetchErr FeedData) (now : DateTimeParts),
      (get_earthquakes_api tz resp now).count =
        (get_earthquakes_api tz resp now).earthquakes.length := by
  intro tz resp now
  rfl

/-- C3 counterexample: a feed whose single feature lacks the geometry key
does raise a fault inside the try block, but get_earthquake returns the
empty list rather than propagating an unhandled fault to its caller: the
blanket exception handler of line 84 catches per-record faults too. -/
theorem claim_C3_counterexample :
    get_earthquake_core 0 (.ok malformedFeed) = .error (.keyError "geometry") ∧
    get_earthquake 0 (.ok malformedFeed) = [] := by
  exact ⟨rfl, rfl⟩

/-- C3 amended: a malformed individual feature record aborts the whole
batch, but the resulting fault is caught by the blanket exception handler
and masked as the empty list; nothing propagates to the caller. -/
theorem claim_C3_masked_fault :
    ∀ (tz : ℤ) (data : FeedData) (e : FetchErr),
      collectRecords tz (data.features.getD []) = .error e →
      get_earthquake tz (.ok data) = [] := by
  intro tz data e h
  unfold get_earthquake get_earthquake_core
  dsimp only
  rw [h]

/-- C3 witness: the amended statement applied to the malformed feed. -/
theorem claim_C3_witness :
    collectRecords 0 (malformedFeed.features.getD []) = .error (.keyError "geometry") ∧
    get_earthquake 0 (.ok malformedFeed) = [] :=
  ⟨rfl, claim_C3_masked_fault 0 malformedFeed (.keyError "geometry") rfl⟩

/-- C7: calculate_distance is symmetric in its two points, vanishes on the
diagonal, and is nonnegative, for all inputs including out-of-range
coordinate values. -/
theorem claim_C7_metric_properties :
    ∀ lat1 lon1 lat2 lon2 : ℝ,
      calculate_distance lat1 lon1 lat2 lon2 = calculate_distance lat2 lon2 lat1 lon1 ∧
      calculate_distance lat1 lon1 lat1 lon1 = 0 ∧
      0 ≤ calculate_distance lat1 lon1 lat2 lon2 := by
  intro lat1 lon1 lat2 lon2
  refine ⟨?_, calculate_distance_self lat1 lon1, ?_⟩
  · simp only [calculate_distance]
    have h1 : Real.sin ((radiansDeg lat2 - radiansDeg lat1) / 2) ^ 2
        = Real.sin ((radiansDeg lat1 - radiansDeg lat2) / 2) ^ 2 := by
      rw [show (radiansDeg lat2 - radiansDeg lat1) / 2
          = -((radiansDeg lat1 - radiansDeg lat2) / 2) by ring, Real.sin_neg, neg_sq]
    have h2 : Real.sin ((radiansDeg lon2 - radiansDeg lon1) / 2) ^ 2
        = Real.sin ((radiansDeg lon1 - radiansDeg lon2) / 2) ^ 2 := by
      rw [show (radiansDeg lon2 - radiansDeg lon1) / 2
          = -((radiansDeg lon1 - radiansDeg lon2) / 2) by ring, Real.sin_neg, neg_sq]
    rw [h1, h2, mul_comm (Real.cos (radiansDeg lat1)) (Real.cos (radiansDeg lat2))]
  · simp only [calculate_distance]
    have h := atan2_nonneg (x := Real.sqrt (1 -
        (Real.sin ((radiansDeg lat2 - radiansDeg lat1) / 2) ^ 2 +
          Real.cos (radiansDeg lat1) * Real.cos (radiansDeg lat2) *
            Real.sin ((radiansDeg lon2 - radiansDeg lon1) / 2) ^ 2)))
      (Real.sqrt_nonneg (Real.sin ((radiansDeg lat2 - radiansDeg lat1) / 2) ^ 2 +
          Real.cos (radiansDeg lat1) * Real.cos (radiansDeg lat2) *
            Real.sin ((radiansDeg lon2 - radiansDeg lon1) / 2) ^ 2))
    linarith

/-- A well-formed feature within the radius is accepted, and its record is
built exactly from the coordinate triple, the properties fields, the rounded
values and the formatted timestamp. -/
lemma processFeature_accepted (tz : ℤ) (c0 c1 c2 : ℝ) (rest : List ℝ)
    (p : EventProperties) (t : ℤ) (hpt : p.time = some t)
    (hd : calculate_distance SF_LAT SF_LON c1 c0 ≤ RADIUS_KM) :
    processFeature tz ⟨some ⟨c0 :: c1 :: c2 :: rest⟩, some p⟩ =
      .ok (some
        { magnitude := p.mag
          place := p.place
          time := civilFromSeconds (t.fdiv 1000 + tz)
          distance_km := round1 (calculate_distance SF_LAT SF_LON c1 c0)
          depth_km := round1 c2
          url := p.url
          alert := p.alert
          felt := p.felt
          tsunami := p.tsunami }) := by
  simp only [processFeature]
  rw [if_pos hd, hpt]

/-- Feature properties with a given magnitude at epoch time zero, used by
the concrete fixtures. -/
def sfProps (m : Option ℝ) : EventProperties :=
  { mag := m, place := none, time := some 0, url := none, alert := none,
    felt := none, tsunami := none }

/-- A feature located exactly at the reference point with depth 10 and the
given magnitude. -/
def sfFeature (m : Option ℝ) : Feature :=
  { geometry := some { coordinates := [SF_LON, SF_LAT, 10] },
    properties := some (sfProps m) }

/-- The record that get_earthquake builds for such a feature. -/
noncomputable def sfRecord (tz : ℤ) (m : Option ℝ) : EarthquakeRecord :=
  { magnitude := m, place := none,
    time := civilFromSeconds ((0 : ℤ).fdiv 1000 + tz),
    distance_km := round1 (calculate_distance SF_LAT SF_LON SF_LAT SF_LON),
    depth_km := round1 10, url := none, alert := none, felt := none,
    tsunami := none }

/-- Such a feature always passes the radius filter (distance zero). -/
lemma processFeature_sfFeature (tz : ℤ) (m : Option ℝ) :
    processFeature tz (sfFeature m) = .ok (some (sfRecord tz m)) := by
  have hd : calculate_distance SF_LAT SF_LON SF_LAT SF_LON ≤ RADIUS_KM := by
    rw [calculate_distance_self]
    norm_num [RADIUS_KM]
  exact processFeature_accepted tz SF_LON SF_LAT 10 [] (sfProps m) 0 rfl hd

/-- C8: the reference point is (37.7749, -122.4194); for every processed
feature, longitude is read from index 0 of its coordinate triple, latitude
from index 1 and depth from index 2; the distance is computed by the
Distance Calculator between the fixed reference point and that latitude and
longitude; the stored distance_km and depth_km are those values rounded to
one decimal place. -/
theorem claim_C8_record_extraction :
    SF_LAT = 37.7749 ∧ SF_LON = -122.4194 ∧
    ∀ (tz : ℤ) (c0 c1 c2 : ℝ) (rest : List ℝ) (p : EventProperties) (t : ℤ),
      p.time = some t →
      calculate_distance SF_LAT SF_LON c1 c0 ≤ RADIUS_KM →
      processFeature tz ⟨some ⟨c0 :: c1 :: c2 :: rest⟩, some p⟩ =
        .ok (some
          { magnitude := p.mag
            place := p.place
            time := civilFromSeconds (t.fdiv 1000 + tz)
            distance_km := round1 (calculate_distance SF_LAT SF_LON c1 c0)
            depth_km := round1 c2
            url := p.url
            alert := p.alert
            felt := p.felt
            tsunami := p.tsunami }) :=
  ⟨rfl, rfl, fun tz c0 c1 c2 rest p t hpt hd =>
    processFeature_accepted tz c0 c1 c2 rest p t hpt hd⟩

/-- C8 witness: the extraction statement applied to a concrete feature at
the reference point. -/
theorem claim_C8_witness :
    (sfProps (some 3)).time = some 0 ∧
    calculate_distance SF_LAT SF_LON SF_LAT SF_LON ≤ RADIUS_KM ∧
    processFeature 0 ⟨some ⟨[SF_LON, SF_LAT, 10]⟩, some (sfProps (some 3))⟩ =
      .ok (some
        { magnitude := some 3
          place := none
          time := civilFromSeconds ((0 : ℤ).fdiv 1000 + 0)
          distance_km := round1 (calculate_distance SF_LAT SF_LON SF_LAT SF_LON)
          depth_km := round1 10
          url := none
          alert := none
          felt := none
          tsunami := none }) := by
  have hd : calculate_distance SF_LAT SF_LON SF_LAT SF_LON ≤ RADIUS_KM := by
    rw [calculate_distance_self]
    norm_num [RADIUS_KM]
  exact ⟨rfl, hd, claim_C8_record_extraction.2.2 0 SF_LON SF_LAT 10 [] (sfProps (some 3)) 0 rfl hd⟩

/-- C2: the source renders the timestamp with datetime.fromtimestamp, which
interprets the epoch value in the host local timezone, yet labels the result
UTC.  With host offset UTC-8 (tz = -28800 seconds, for example the
America/Los_Angeles standard offset) a feature at epoch time 0 ms is stored
as 1969-12-31 16:00:00, while the UTC rendering the specification requires
is 1970-01-01 00:00:00.  This exhibits the divergence at a concrete input. -/
theorem claim_C2_local_time_divergence :
    (get_earthquake (-28800) (.ok ⟨some [sfFeature (some 3)]⟩)).map (fun r => r.time)
      = [⟨1969, 12, 31, 16, 0, 0⟩] ∧
    civilFromSeconds ((0 : ℤ).fdiv 1000) = ⟨1970, 1, 1, 0, 0, 0⟩ ∧
    (⟨1969, 12, 31, 16, 0, 0⟩ : DateTimeParts) ≠ ⟨1970, 1, 1, 0, 0, 0⟩ := by
  refine ⟨?_, by decide, by decide⟩
  have h := processFeature_sfFeature (-28800) (some 3)
  unfold get_earthquake get_earthquake_core
  dsimp only
  simp only [Option.getD, collectRecords, h, List.insertionSort, List.orderedInsert,
    List.map, sfRecord]
  decide

/-- Moving only in latitude by d kilometers of arc produces haversine
distance exactly d, for 0 ≤ d below half the circumference. -/
lemma calculate_distance_meridian (lat lon d : ℝ) (h0 : 0 ≤ d)
    (hlt : d < 6371 * Real.pi) :
    calculate_distance lat lon (lat + d * 180 / (6371 * Real.pi)) lon = d := by
  have hπ := Real.pi_pos
  have hπne : Real.pi ≠ 0 := ne_of_gt hπ
  have hθ0 : 0 ≤ d / 12742 := by positivity
  have hθlt : d / 12742 < Real.pi / 2 := by
    rw [div_lt_iff (by norm_num : (0 : ℝ) < 12742)]
    linarith
  simp only [calculate_distance, radiansDeg]
  have e1 : ((lat + d * 180 / (6371 * Real.pi)) * Real.pi / 180 - lat * Real.pi / 180) / 2
      = d / 12742 := by
    field_simp
    ring
  have e2 : (lon * Real.pi / 180 - lon * Real.pi / 180) / 2 = 0 := by ring
  rw [e1, e2]
  rw [Real.sin_zero]
  have hz : (0 : ℝ) ^ 2 = 0 := by norm_num
  rw [hz, mul_zero, add_zero]
  have hsin : 0 ≤ Real.sin (d / 12742) :=
    Real.sin_nonneg_of_nonneg_of_le_pi hθ0 (by linarith)
  have hcos : 0 < Real.cos (d / 12742) :=
    Real.cos_pos_of_mem_Ioo ⟨by linarith, hθlt⟩
  rw [Real.sqrt_sq hsin]
  rw [show 1 - Real.sin (d / 12742) ^ 2 = Real.cos (d / 12742) ^ 2 by
    nlinarith [Real.sin_sq_add_cos_sq (d / 12742)]]
  rw [Real.sqrt_sq hcos.le]
  unfold atan2
  rw [if_pos hcos]
  rw [show Real.sin (d / 12742) / Real.cos (d / 12742) = Real.tan (d / 12742) from
    (Real.tan_eq_sin_div_cos (d / 12742)).symm]
  rw [Real.arctan_tan (by linarith) hθlt]
  ring

/-- Latitude at haversine distance exactly 50 km due north of the reference
point. -/
noncomputable def lat50 : ℝ := SF_LAT + 50 * 180 / (6371 * Real.pi)

/-- Latitude at haversine distance exactly 250 km due north of the reference
point. -/
noncomputable def lat250 : ℝ := SF_LAT + 250 * 180 / (6371 * Real.pi)

/-- C4: every record of every returned list has distance_km at most 200,
and a feed holding one feature at distance 50 km and one at distance 250 km
yields exactly the 50 km record. -/
theorem claim_C4_radius_filter :
    (∀ (tz : ℤ) (resp : Except FetchErr FeedData) (r : EarthquakeRecord),
        r ∈ get_earthquake tz resp → r.distance_km ≤ 200) ∧
    (∀ (tz : ℤ) (c0 c1 d1 c0b c1b d2 : ℝ) (rest1 rest2 : List ℝ)
        (p1 p2 : EventProperties) (t1 t2 : ℤ),
        p1.time = some t1 → p2.time = some t2 →
        calculate_distance SF_LAT SF_LON c1 c0 = 50 →
        calculate_distance SF_LAT SF_LON c1b c0b = 250 →
        get_earthquake tz (.ok ⟨some [⟨some ⟨c0 :: c1 :: d1 :: rest1⟩, some p1⟩,
                                      ⟨some ⟨c0b :: c1b :: d2 :: rest2⟩, some p2⟩]⟩) =
          [{ magnitude := p1.mag, place := p1.place,
             time := civilFromSeconds (t1.fdiv 1000 + tz),
             distance_km := round1 50, depth_km := round1 d1,
             url := p1.url, alert := p1.alert, felt := p1.felt,
             tsunami := p1.tsunami }]) := by
  constructor
  · intro tz resp r h
    rcases mem_get_earthquake h with ⟨f, hp⟩
    exact processFeature_distance_le hp
  · intro tz c0 c1 d1 c0b c1b d2 rest1 rest2 p1 p2 t1 t2 hpt1 hpt2 hd1 hd2
    have h1 := processFeature_accepted tz c0 c1 d1 rest1 p1 t1 hpt1
      (by rw [hd1]; norm_num [RADIUS_KM])
    rw [hd1] at h1
    have h2 : processFeature tz ⟨some ⟨c0b :: c1b :: d2 :: rest2⟩, some p2⟩ = .ok none := by
      simp only [processFeature]
      rw [if_neg]
      rw [hd2]
      norm_num [RADIUS_KM]
    unfold get_earthquake get_earthquake_core
    dsimp only
    simp only [Option.getD, collectRecords, h1, h2, List.insertionSort, List.orderedInsert]

/-- C4 witness: the fixture statement applied to concrete features at
haversine distances exactly 50 km and 250 km from the reference point. -/
theorem claim_C4_witness :
    calculate_distance SF_LAT SF_LON lat50 SF_LON = 50 ∧
    calculate_distance SF_LAT SF_LON lat250 SF_LON = 250 ∧
    get_earthquake 0 (.ok ⟨some [⟨some ⟨[SF_LON, lat50, 8]⟩, some (sfProps (some 3))⟩,
                                 ⟨some ⟨[SF_LON, lat250, 9]⟩, some (sfProps (some 4))⟩]⟩) =
      [{ magnitude := some 3, place := none,
         time := civilFromSeconds ((0 : ℤ).fdiv 1000 + 0),
         distance_km := round1 50, depth_km := round1 8,
         url := none, alert := none, felt := none, tsunami := none }] := by
  have h50 : calculate_distance SF_LAT SF_LON lat50 SF_LON = 50 := by
    unfold lat50
    exact calculate_distance_meridian SF_LAT SF_LON 50 (by norm_num)
      (by have := Real.pi_gt_three; linarith)
  have h250 : calculate_distance SF_LAT SF_LON lat250 SF_LON = 250 := by
    unfold lat250
    exact calculate_distance_meridian SF_LAT SF_LON 250 (by norm_num)
      (by have := Real.pi_gt_three; linarith)
  exact ⟨h50, h250,
    claim_C4_radius_filter.2 0 SF_LON lat50 8 SF_LON lat250 9 [] []
      (sfProps (some 3)) (sfProps (some 4)) 0 0 rfl rfl h50 h250⟩

/-- C5: every returned list is sorted non-increasingly by the sort key (the
magnitude, with an absent magnitude counting as 0 for ordering only), and
the fixture with magnitudes 3.0, absent, 5.5 comes back in the order 5.5,
3.0, absent, the stored magnitude of the last record remaining absent. -/
theorem claim_C5_sort_order :
    (∀ (tz : ℤ) (resp : Except FetchErr FeedData),
        (get_earthquake tz resp).Sorted magGE) ∧
    (∀ tz : ℤ,
        (get_earthquake tz
            (.ok ⟨some [sfFeature (some 3), sfFeature none, sfFeature (some 5.5)]⟩)).map
          (fun r => r.magnitude) = [some 5.5, some 3, none]) := by
  constructor
  · intro tz resp
    unfold get_earthquake get_earthquake_core
    cases resp with
    | error e => exact List.sorted_nil
    | ok data =>
      dsimp only
      cases h : collectRecords tz (data.features.getD []) with
      | error e => exact List.sorted_nil
      | ok l => exact List.sorted_insertionSort magGE l
  · intro tz
    have h3 := processFeature_sfFeature tz (some 3)
    have hN := processFeature_sfFeature tz none
    have h55 := processFeature_sfFeature tz (some 5.5)
    have k3 : sortKey (sfRecord tz (some 3)) = 3 := by norm_num [sortKey, sfRecord]
    have kN : sortKey (sfRecord tz none) = 0 := by norm_num [sortKey, sfRecord]
    have k55 : sortKey (sfRecord tz (some 5.5)) = 5.5 := by norm_num [sortKey, sfRecord]
    have hbc : ¬ magGE (sfRecord tz none) (sfRecord tz (some 5.5)) := by
      rw [magGE, kN, k55]
      norm_num
    have hac : ¬ magGE (sfRecord tz (some 3)) (sfRecord tz (some 5.5)) := by
      rw [magGE, k3, k55]
      norm_num
    have hab : magGE (sfRecord tz (some 3)) (sfRecord tz none) := by
      rw [magGE, k3, kN]
      norm_num
    unfold get_earthquake get_earthquake_core
    dsimp only
    simp only [Option.getD, collectRecords, h3, hN, h55, List.insertionSort,
      List.orderedInsert, if_neg hbc, if_neg hac, if_pos hab, List.map]
    simp [sfRecord]

/-! ## Numeric bounds for the San Francisco to Los Angeles fixture -/

/-- The arctangent of a nonnegative number is at most that number. -/
lemma arctan_le_self_of_nonneg {q : ℝ} (h : 0 ≤ q) : Real.arctan q ≤ q := by
  have h0 : 0 ≤ Real.arctan q := arctan_nonneg_of_nonneg h
  have h1 : Real.arctan q < Real.pi / 2 := Real.arctan_lt_pi_div_two q
  have h2 := Real.le_tan h0 h1
  rwa [Real.tan_arctan] at h2

/-- A cubic lower bound on the arctangent of a nonnegative number. -/
lemma arctan_ge_sub_cube {q : ℝ} (h : 0 ≤ q) : q - q ^ 3 / 2 ≤ Real.arctan q := by
  have h0 : 0 ≤ Real.arctan q := arctan_nonneg_of_nonneg h
  have hs : Real.sin (Real.arctan q) ≤ Real.arctan q := Real.sin_le h0
  rw [Real.sin_arctan] at hs
  have hsq : Real.sqrt (1 + q ^ 2) ≤ 1 + q ^ 2 / 2 :=
    Real.sqrt_one_add_le (by nlinarith [sq_nonneg q])
  have hpos : (0 : ℝ) < Real.sqrt (1 + q ^ 2) := Real.sqrt_pos.mpr (by positivity)
  have hd : q / (1 + q ^ 2 / 2) ≤ q / Real.sqrt (1 + q ^ 2) := by
    rw [div_le_div_iff (by positivity) hpos]
    exact mul_le_mul_of_nonneg_left hsq h
  have hlast : q - q ^ 3 / 2 ≤ q / (1 + q ^ 2 / 2) := by
    rw [le_div_iff (by positivity : (0 : ℝ) < 1 + q ^ 2 / 2)]
    nlinarith [pow_nonneg h 5]
  linarith

/-- Interval bounds on the sine from interval bounds on a small positive
argument. -/
lemma sin_bounds_of_bounds {x lo hi : ℝ} (hlo : lo ≤ x) (hhi : x ≤ hi)
    (h0 : 0 < lo) (h1 : hi ≤ 1) :
    lo - hi ^ 3 / 4 ≤ Real.sin x ∧ Real.sin x ≤ hi := by
  have hx0 : 0 < x := lt_of_lt_of_le h0 hlo
  constructor
  · have hgt := Real.sin_gt_sub_cube hx0 (le_trans hhi h1)
    have hcube : x ^ 3 ≤ hi ^ 3 := pow_le_pow_left hx0.le hhi 3
    linarith
  · have := Real.sin_le hx0.le
    linarith

/-- The cosine through the squared sine of the half angle. -/
lemma cos_eq_one_sub_two_sin_sq_half (x : ℝ) :
    Real.cos x = 1 - 2 * Real.sin (x / 2) ^ 2 := by
  have h := Real.sin_sq_eq_half_sub (x := x / 2)
  have h2 : 2 * (x / 2) = x := by ring
  rw [h2] at h
  linarith

/-- The numeric tail of the fixture bound: with the haversine quantity a in
the established interval, the distance 6371 times the central angle lies
within 5 km of 559 km. -/
lemma haversine_tail_bound {B : ℝ} (hB1 : (0.0019099 : ℝ) ≤ B)
    (hB2 : B ≤ 0.0019322) :
    |6371 * (2 * atan2 (Real.sqrt B) (Real.sqrt (1 - B))) - 559| ≤ 5 := by
  have h1A : (0 : ℝ) < 1 - B := by linarith
  have hxpos : 0 < Real.sqrt (1 - B) := Real.sqrt_pos.mpr h1A
  unfold atan2
  rw [if_pos hxpos]
  -- square root bounds
  have hsa1 : (0.043702 : ℝ) ≤ Real.sqrt B :=
    Real.le_sqrt_of_sq_le (by nlinarith)
  have hsa2 : Real.sqrt B ≤ 0.043957 := by
    have h := Real.sqrt_le_sqrt (show B ≤ (0.043957 : ℝ) ^ 2 by nlinarith)
    rwa [Real.sqrt_sq (by norm_num : (0 : ℝ) ≤ 0.043957)] at h
  have hsb1 : (0.999033 : ℝ) ≤ Real.sqrt (1 - B) :=
    Real.le_sqrt_of_sq_le (by nlinarith)
  have hsb2 : Real.sqrt (1 - B) ≤ 0.999046 := by
    have h := Real.sqrt_le_sqrt (show 1 - B ≤ (0.999046 : ℝ) ^ 2 by nlinarith)
    rwa [Real.sqrt_sq (by norm_num : (0 : ℝ) ≤ 0.999046)] at h
  -- quotient bounds
  have hTlo : (0.04374 : ℝ) ≤ Real.sqrt B / Real.sqrt (1 - B) := by
    have h := div_le_div (Real.sqrt_nonneg B) hsa1 hxpos hsb2
    have h2 : (0.04374 : ℝ) ≤ 0.043702 / 0.999046 := by
      rw [le_div_iff (by norm_num : (0 : ℝ) < 0.999046)]
      norm_num
    linarith
  have hThi : Real.sqrt B / Real.sqrt (1 - B) ≤ 0.04401 := by
    have h := div_le_div (by norm_num : (0 : ℝ) ≤ 0.043957) hsa2
      (by norm_num : (0 : ℝ) < 0.999033) hsb1
    have h2 : (0.043957 : ℝ) / 0.999033 ≤ 0.04401 := by
      rw [div_le_iff (by norm_num : (0 : ℝ) < 0.999033)]
      norm_num
    linarith
  -- arctangent bounds and conclusion
  have harc1 : (0.043698 : ℝ) ≤ Real.arctan (Real.sqrt B / Real.sqrt (1 - B)) := by
    have hm := Real.arctan_strictMono.monotone hTlo
    have hq := arctan_ge_sub_cube (by norm_num : (0 : ℝ) ≤ 0.04374)
    have he : (0.043698 : ℝ) ≤ 0.04374 - 0.04374 ^ 3 / 2 := by norm_num
    linarith
  have harc2 : Real.arctan (Real.sqrt B / Real.sqrt (1 - B)) ≤ 0.04401 := by
    have hm := Real.arctan_strictMono.monotone hThi
    have hq := arctan_le_self_of_nonneg (by norm_num : (0 : ℝ) ≤ 0.04401)
    linarith
  rw [abs_le]
  constructor
  · linarith
  · linarith

set_option maxHeartbeats 1000000 in
/-- C9: the haversine distance from the reference point (37.7749, -122.4194)
to Los Angeles (34.0522, -118.2437) is within 5 km of 559 km. -/
theorem claim_C9_sf_la_distance :
    |calculate_distance 37.7749 (-122.4194) 34.0522 (-118.2437) - 559| ≤ 5 := by
  have hπl : (3.141592 : ℝ) < Real.pi := Real.pi_gt_d6
  have hπu : Real.pi < 3.141593 := Real.pi_lt_d6
  simp only [calculate_distance, radiansDeg]
  rw [show (34.0522 * Real.pi / 180 - 37.7749 * Real.pi / 180) / 2
      = -(3.7227 * Real.pi / 360) by ring]
  rw [show (-118.2437 * Real.pi / 180 - -122.4194 * Real.pi / 180) / 2
      = 4.1757 * Real.pi / 360 by ring]
  rw [Real.sin_neg, neg_sq]
  -- bounds on the first sine
  have hu1 : (0.0324866 : ℝ) ≤ 3.7227 * Real.pi / 360 := by linarith
  have hu1' : 3.7227 * Real.pi / 360 ≤ 0.0324868 := by linarith
  have hs1 := sin_bounds_of_bounds hu1 hu1' (by norm_num) (by norm_num)
  have hs1lo : (0.032478 : ℝ) ≤ Real.sin (3.7227 * Real.pi / 360) :=
    le_trans (by norm_num) hs1.1
  have hs1sq_lo : (0.0010548 : ℝ) ≤ Real.sin (3.7227 * Real.pi / 360) ^ 2 :=
    le_trans (by norm_num) (pow_le_pow_left (by norm_num) hs1lo 2)
  have hs1sq_hi : Real.sin (3.7227 * Real.pi / 360) ^ 2 ≤ 0.0010554 :=
    le_trans (pow_le_pow_left (le_trans (by norm_num) hs1lo) hs1.2 2) (by norm_num)
  -- bounds on the second sine
  have hu2 : (0.0364398 : ℝ) ≤ 4.1757 * Real.pi / 360 := by linarith
  have hu2' : 4.1757 * Real.pi / 360 ≤ 0.0364399 := by linarith
  have hs2 := sin_bounds_of_bounds hu2 hu2' (by norm_num) (by norm_num)
  have hs2lo : (0.036427 : ℝ) ≤ Real.sin (4.1757 * Real.pi / 360) :=
    le_trans (by norm_num) hs2.1
  have hs2sq_lo : (0.0013269 : ℝ) ≤ Real.sin (4.1757 * Real.pi / 360) ^ 2 :=
    le_trans (by norm_num) (pow_le_pow_left (by norm_num) hs2lo 2)
  have hs2sq_hi : Real.sin (4.1757 * Real.pi / 360) ^ 2 ≤ 0.0013279 :=
    le_trans (pow_le_pow_left (le_trans (by norm_num) hs2lo) hs2.2 2) (by norm_num)
  -- bounds on the first cosine
  have hx1hi : 37.7749 * Real.pi / 180 ≤ 0.659297 := by linarith
  have hc1lo : (0.782663 : ℝ) ≤ Real.cos (37.7749 * Real.pi / 180) := by
    have h := Real.one_sub_sq_div_two_le_cos (x := 37.7749 * Real.pi / 180)
    have hsq : (37.7749 * Real.pi / 180) ^ 2 ≤ 0.659297 ^ 2 :=
      pow_le_pow_left (by linarith) hx1hi 2
    linarith
  have hc1hi : Real.cos (37.7749 * Real.pi / 180) ≤ 0.794314 := by
    rw [cos_eq_one_sub_two_sin_sq_half]
    rw [show 37.7749 * Real.pi / 180 / 2 = 37.7749 * Real.pi / 360 by ring]
    have hhl : (0.329648 : ℝ) ≤ 37.7749 * Real.pi / 360 := by linarith
    have hhh : 37.7749 * Real.pi / 360 ≤ 0.3296483 := by linarith
    have hsh := sin_bounds_of_bounds hhl hhh (by norm_num) (by norm_num)
    have hshl : (0.320692 : ℝ) ≤ Real.sin (37.7749 * Real.pi / 360) :=
      le_trans (by norm_num) hsh.1
    have hsq2 : (0.320692 : ℝ) ^ 2 ≤ Real.sin (37.7749 * Real.pi / 360) ^ 2 :=
      pow_le_pow_left (by norm_num) hshl 2
    linarith
  -- bounds on the second cosine
  have hx2hi : 34.0522 * Real.pi / 180 ≤ 0.594324 := by linarith
  have hc2lo : (0.823389 : ℝ) ≤ Real.cos (34.0522 * Real.pi / 180) := by
    have h := Real.one_sub_sq_div_two_le_cos (x := 34.0522 * Real.pi / 180)
    have hsq : (34.0522 * Real.pi / 180) ^ 2 ≤ 0.594324 ^ 2 :=
      pow_le_pow_left (by linarith) hx2hi 2
    linarith
  have hc2hi : Real.cos (34.0522 * Real.pi / 180) ≤ 0.831104 := by
    rw [cos_eq_one_sub_two_sin_sq_half]
    rw [show 34.0522 * Real.pi / 180 / 2 = 34.0522 * Real.pi / 360 by ring]
    have hhl : (0.297161 : ℝ) ≤ 34.0522 * Real.pi / 360 := by linarith
    have hhh : 34.0522 * Real.pi / 360 ≤ 0.2971616 := by linarith
    have hsh := sin_bounds_of_bounds hhl hhh (by norm_num) (by norm_num)
    have hshl : (0.290600 : ℝ) ≤ Real.sin (34.0522 * Real.pi / 360) :=
      le_trans (by norm_num) hsh.1
    have hsq2 : (0.290600 : ℝ) ^ 2 ≤ Real.sin (34.0522 * Real.pi / 360) ^ 2 :=
      pow_le_pow_left (by norm_num) hshl 2
    linarith
  -- bounds on the cosine product
  have hc1nn : (0 : ℝ) ≤ Real.cos (37.7749 * Real.pi / 180) := by linarith
  have hc2nn : (0 : ℝ) ≤ Real.cos (34.0522 * Real.pi / 180) := by linarith
  have hPlo : (0.644436 : ℝ) ≤
      Real.cos (37.7749 * Real.pi / 180) * Real.cos (34.0522 * Real.pi / 180) := by
    have h := mul_le_mul hc1lo hc2lo (by norm_num) hc1nn
    linarith
  have hPhi : Real.cos (37.7749 * Real.pi / 180) * Real.cos (34.0522 * Real.pi / 180)
      ≤ 0.660158 := by
    have h := mul_le_mul hc1hi hc2hi hc2nn (by norm_num)
    linarith
  have hPnn : (0 : ℝ) ≤
      Real.cos (37.7749 * Real.pi / 180) * Real.cos (34.0522 * Real.pi / 180) := by
    linarith
  have ht2lo : (0.0008551 : ℝ) ≤
      Real.cos (37.7749 * Real.pi / 180) * Real.cos (34.0522 * Real.pi / 180) *
        Real.sin (4.1757 * Real.pi / 360) ^ 2 := by
    have h := mul_le_mul hPlo hs2sq_lo (by norm_num) hPnn
    linarith
  have ht2hi : Real.cos (37.7749 * Real.pi / 180) * Real.cos (34.0522 * Real.pi / 180) *
      Real.sin (4.1757 * Real.pi / 360) ^ 2 ≤ 0.0008768 := by
    have h := mul_le_mul hPhi hs2sq_hi (sq_nonneg _) (by norm_num)
    linarith
  exact haversine_tail_bound (by linarith) (by linarith)
